import Mathlib

/-!
Verification of the review-rot core (reviewrot/basereview.py): the
time-window filter `check_request_state`, the recency check
`has_new_comments`, the duration formatter `format_duration`, and the
multi-style renderers of `BaseReview`.

The embedding works at one-second granularity on a proleptic Gregorian
calendar.  `DateTime` models `datetime.datetime` (timezone-naive);
`relativedelta` models `dateutil.relativedelta.relativedelta(dt1, dt2)`
for `dt1 >= dt2`; the current UTC time is passed explicitly as a `now`
parameter instead of being read from the clock.
-/

/-- A timezone-naive `datetime.datetime`, at second granularity
(microseconds are not modelled). -/
structure DateTime where
  year : Int
  month : Nat
  day : Nat
  hour : Nat
  minute : Nat
  second : Nat
deriving Repr, DecidableEq

/-- Gregorian leap-year test, as in `calendar.isleap`. -/
def isLeap (y : Int) : Bool :=
  Int.emod y 4 = 0 && (Int.emod y 100 ≠ 0 || Int.emod y 400 = 0)

/-- Number of days in a month, as in `calendar.monthrange(y, m)[1]`. -/
def daysInMonth (y : Int) (m : Nat) : Nat :=
  if m = 2 then (if isLeap y then 29 else 28)
  else if m = 4 ∨ m = 6 ∨ m = 9 ∨ m = 11 then 30
  else 31

/-- Days since the Unix epoch 1970-01-01 of the civil date `(y, m, d)`
(proleptic Gregorian calendar). -/
def daysFromCivil (y : Int) (m d : Nat) : Int :=
  let y' : Int := if m ≤ 2 then y - 1 else y
  let era : Int := Int.fdiv y' 400
  let yoe : Int := y' - era * 400
  let mp : Int := Int.emod ((m : Int) + 9) 12
  let doy : Int := Int.fdiv (153 * mp + 2) 5 + (d : Int) - 1
  let doe : Int := yoe * 365 + Int.fdiv yoe 4 - Int.fdiv yoe 100 + doy
  era * 146097 + doe - 719468

/-- Seconds since the Unix epoch of a `DateTime`; datetime subtraction
(`timedelta.total_seconds()`) is subtraction of these values. -/
def DateTime.toSeconds (dt : DateTime) : Int :=
  daysFromCivil dt.year dt.month dt.day * 86400
    + dt.hour * 3600 + dt.minute * 60 + dt.second

/-- `dt + relativedelta(months=n)` as computed by
`relativedelta.__radd__`: shift the year/month, clamping the day to the
length of the target month. -/
def addMonths (dt : DateTime) (n : Nat) : DateTime :=
  let t : Int := dt.year * 12 + (dt.month : Int) - 1 + (n : Int)
  let y : Int := Int.fdiv t 12
  let m : Nat := (Int.fmod t 12).toNat + 1
  { dt with year := y, month := m, day := min dt.day (daysInMonth y m) }

/-- The adjustment loop of `relativedelta.__init__`: decrement the month
count while `dt2` shifted by it overshoots `dt1`.  `fuel` bounds the
number of iterations; the caller passes one more than the initial month
count, which the loop can never exceed. -/
def rdAdjust (dt1 dt2 : DateTime) : Nat → Nat → Nat
  | 0, m => m
  | fuel + 1, m =>
    if dt1.toSeconds < (addMonths dt2 m).toSeconds then
      match m with
      | 0 => 0
      | m' + 1 => rdAdjust dt1 dt2 fuel m'
    else m

/-- The normalized month count between `dt2` and `dt1` (`dt1 ≥ dt2`):
start from the raw year/month difference and adjust downward while the
shifted date overshoots. -/
def relMonths (dt1 dt2 : DateTime) : Nat :=
  let m0 : Nat := ((dt1.year - dt2.year) * 12 + (dt1.month : Int) - (dt2.month : Int)).toNat
  rdAdjust dt1 dt2 (m0 + 1) m0

/-- The fields of a `relativedelta(dt1, dt2)` after `_fix()`
normalization (all non-negative for `dt1 ≥ dt2`). -/
structure RelDelta where
  years : Nat
  months : Nat
  days : Nat
  hours : Nat
  minutes : Nat
  seconds : Nat
deriving Repr, DecidableEq

/-- `dateutil.relativedelta.relativedelta(dt1, dt2)` for `dt1 ≥ dt2`:
the month count is split into years and months, and the residual
duration from the month-shifted `dt2` to `dt1` is decomposed into days,
hours, minutes and seconds. -/
def relativedelta (dt1 dt2 : DateTime) : RelDelta :=
  let m : Nat := relMonths dt1 dt2
  let secs : Nat := (dt1.toSeconds - (addMonths dt2 m).toSeconds).toNat
  { years := m / 12, months := m % 12,
    days := secs / 86400, hours := secs / 3600 % 24,
    minutes := secs / 60 % 60, seconds := secs % 60 }

/-- The two `ValueError`s raised by `check_request_state`, distinguished
by their message. -/
inductive FilterError where
  | invalidState (s : String)
  | invalidDuration (d : String)
deriving Repr, DecidableEq

/-- `BaseService.check_request_state(created_at, state_, value, duration)`
with the current UTC time passed as `now`.  `none` models `None`;
`Except.error` models a raised `ValueError`. -/
def check_request_state (now created_at : DateTime)
    (state_ : Option String) (value : Option Int) (duration : Option String) :
    Except FilterError Bool :=
  match state_, value, duration with
  | some st, some v, some dur =>
    let rel := relativedelta now created_at
    let absSecs : Int := now.toSeconds - created_at.toSeconds
    if st = "older" ∨ st = "newer" then
      if dur = "y" then
        if st = "older" ∧ (rel.years : Int) < v then .ok false
        else if st = "newer" ∧ (rel.years : Int) ≥ v then .ok false
        else .ok true
      else if dur = "m" then
        let absMonth : Int := (rel.years : Int) * 12 + (rel.months : Int)
        if st = "older" ∧ absMonth < v then .ok false
        else if st = "newer" ∧ absMonth ≥ v then .ok false
        else .ok true
      else if dur = "d" then
        let absDays : Int := Int.fdiv absSecs 86400
        if st = "older" ∧ absDays < v then .ok false
        else if st = "newer" ∧ absDays ≥ v then .ok false
        else .ok true
      else if dur = "h" then
        let absHour : ℚ := (absSecs : ℚ) / 3600
        if st = "older" ∧ absHour < (v : ℚ) then .ok false
        else if st = "newer" ∧ absHour ≥ (v : ℚ) then .ok false
        else .ok true
      else if dur = "min" then
        let absMin : ℚ := (absSecs : ℚ) / 60
        if st = "older" ∧ absMin < (v : ℚ) then .ok false
        else if st = "newer" ∧ absMin ≥ (v : ℚ) then .ok false
        else .ok true
      else .error (.invalidDuration dur)
    else .error (.invalidState st)
  | _, _, _ => .ok true

/-- `BaseService.has_new_comments(last_activity, days)` with the current
time passed as `now`.  The guard `if last_activity and days:` tests
Python truthiness: a `datetime` is always truthy, an `int` is truthy iff
nonzero, `None` is falsy. -/
def has_new_comments (now : DateTime)
    (last_activity : Option DateTime) (days : Option Int) : Bool :=
  match last_activity, days with
  | some la, some d =>
    if d ≠ 0 then decide (Int.fdiv (now.toSeconds - la.toSeconds) 86400 < d)
    else false
  | _, _ => false

/-- The "older"/"newer" acceptance rule as the spec words it: "older"
passes when the computed quantity is `≥ value`, "newer" passes when it
is `< value`. -/
def passRule {α : Type} [LinearOrder α] (st : String) (q v : α) : Bool :=
  if st = "older" then decide (v ≤ q) else decide (q < v)

/-- Helper: the "d" unit compares the elapsed whole days (floor of the
second difference over 86400) under the older/newer rule. -/
lemma check_request_state_d_eq (now created_at : DateTime)
    (st : String) (v : Int) (hst : st = "older" ∨ st = "newer") :
    check_request_state now created_at (some st) (some v) (some "d")
      = .ok (passRule st (Int.fdiv (now.toSeconds - created_at.toSeconds) 86400) v) := by
  rcases hst with h | h <;> subst h <;>
    simp only [check_request_state, passRule, if_true, if_false] <;>
    norm_num <;>
    split_ifs <;>
    simp_all

/-- Claim C1: with all three of state, value and unit set, state "older"
or "newer" and unit among y/m/d/h/min, the filter returns (without
error) exactly the per-unit comparison: "older" passes iff the quantity
is `≥ value`, "newer" iff it is `< value`, where the quantity is the
relative-delta years for `y`, `years*12 + months` for `m`, elapsed whole
days for `d`, `elapsedSeconds/3600` for `h` and `elapsedSeconds/60`
(fractional) for `min`. -/
theorem check_request_state_per_unit (now created_at : DateTime)
    (st : String) (v : Int) (hst : st = "older" ∨ st = "newer") :
    check_request_state now created_at (some st) (some v) (some "y")
      = .ok (passRule st ((relativedelta now created_at).years : Int) v)
    ∧ check_request_state now created_at (some st) (some v) (some "m")
      = .ok (passRule st
          (((relativedelta now created_at).years : Int) * 12
            + ((relativedelta now created_at).months : Int)) v)
    ∧ check_request_state now created_at (some st) (some v) (some "d")
      = .ok (passRule st (Int.fdiv (now.toSeconds - created_at.toSeconds) 86400) v)
    ∧ check_request_state now created_at (some st) (some v) (some "h")
      = .ok (passRule st (((now.toSeconds - created_at.toSeconds : Int) : ℚ) / 3600) (v : ℚ))
    ∧ check_request_state now created_at (some st) (some v) (some "min")
      = .ok (passRule st (((now.toSeconds - created_at.toSeconds : Int) : ℚ) / 60) (v : ℚ)) := by
  rcases hst with h | h <;> subst h <;>
    refine ⟨?_, ?_, ?_, ?_, ?_⟩ <;>
    simp only [check_request_state, passRule, if_true, if_false] <;>
    norm_num <;>
    split_ifs <;>
    simp_all

/-- Witness for C1 at a concrete instant: now = 2026-10-12 00:00:00,
created = 2025-09-07 00:00:00 (400 days earlier), state "older",
value 1. -/
theorem check_request_state_per_unit_witness :
    check_request_state ⟨2026, 10, 12, 0, 0, 0⟩ ⟨2025, 9, 7, 0, 0, 0⟩
        (some "older") (some 1) (some "y")
      = .ok (passRule "older"
          ((relativedelta ⟨2026, 10, 12, 0, 0, 0⟩ ⟨2025, 9, 7, 0, 0, 0⟩).years : Int) 1)
    ∧ check_request_state ⟨2026, 10, 12, 0, 0, 0⟩ ⟨2025, 9, 7, 0, 0, 0⟩
        (some "older") (some 1) (some "m")
      = .ok (passRule "older"
          (((relativedelta ⟨2026, 10, 12, 0, 0, 0⟩ ⟨2025, 9, 7, 0, 0, 0⟩).years : Int) * 12
            + ((relativedelta ⟨2026, 10, 12, 0, 0, 0⟩ ⟨2025, 9, 7, 0, 0, 0⟩).months : Int)) 1)
    ∧ check_request_state ⟨2026, 10, 12, 0, 0, 0⟩ ⟨2025, 9, 7, 0, 0, 0⟩
        (some "older") (some 1) (some "d")
      = .ok (passRule "older"
          (Int.fdiv ((⟨2026, 10, 12, 0, 0, 0⟩ : DateTime).toSeconds
            - (⟨2025, 9, 7, 0, 0, 0⟩ : DateTime).toSeconds) 86400) 1)
    ∧ check_request_state ⟨2026, 10, 12, 0, 0, 0⟩ ⟨2025, 9, 7, 0, 0, 0⟩
        (some "older") (some 1) (some "h")
      = .ok (passRule "older"
          ((((⟨2026, 10, 12, 0, 0, 0⟩ : DateTime).toSeconds
            - (⟨2025, 9, 7, 0, 0, 0⟩ : DateTime).toSeconds : Int) : ℚ) / 3600) (1 : ℚ))
    ∧ check_request_state ⟨2026, 10, 12, 0, 0, 0⟩ ⟨2025, 9, 7, 0, 0, 0⟩
        (some "older") (some 1) (some "min")
      = .ok (passRule "older"
          ((((⟨2026, 10, 12, 0, 0, 0⟩ : DateTime).toSeconds
            - (⟨2025, 9, 7, 0, 0, 0⟩ : DateTime).toSeconds : Int) : ℚ) / 60) (1 : ℚ)) :=
  check_request_state_per_unit ⟨2026, 10, 12, 0, 0, 0⟩ ⟨2025, 9, 7, 0, 0, 0⟩
    "older" 1 (Or.inl rfl)

/-- Claim C5: with all three inputs set, `InvalidStateError` is raised
iff the state is neither "older" nor "newer"; given a valid state,
`InvalidDurationError` is raised iff the unit is not one of y, m, d, h,
min; and with a valid state and unit no error is raised. -/
theorem check_request_state_errors (now created_at : DateTime)
    (st : String) (v : Int) (u : String) :
    ((∃ e, check_request_state now created_at (some st) (some v) (some u)
        = .error (.invalidState e)) ↔ (st ≠ "older" ∧ st ≠ "newer"))
    ∧ ((st = "older" ∨ st = "newer") →
        ((∃ e, check_request_state now created_at (some st) (some v) (some u)
            = .error (.invalidDuration e))
          ↔ u ∉ (["y", "m", "d", "h", "min"] : List String)))
    ∧ ((st = "older" ∨ st = "newer") →
        u ∈ (["y", "m", "d", "h", "min"] : List String) →
        ∃ b, check_request_state now created_at (some st) (some v) (some u) = .ok b) := by
  refine ⟨⟨?_, ?_⟩, fun hst => ⟨?_, ?_⟩, ?_⟩
  · rintro ⟨e, he⟩
    by_contra hcon
    rw [not_and_or, not_not, not_not] at hcon
    simp only [check_request_state, if_pos hcon] at he
    split_ifs at he
    all_goals simp_all
  · rintro ⟨h1, h2⟩
    have hcond : ¬(st = "older" ∨ st = "newer") := by tauto
    exact ⟨st, by simp only [check_request_state, if_neg hcond]⟩
  · rintro ⟨e, he⟩
    simp only [check_request_state, if_pos hst] at he
    split_ifs at he
    all_goals simp_all
  · intro hu
    have h1 : ¬ u = "y" := fun h => hu (by simp [h])
    have h2 : ¬ u = "m" := fun h => hu (by simp [h])
    have h3 : ¬ u = "d" := fun h => hu (by simp [h])
    have h4 : ¬ u = "h" := fun h => hu (by simp [h])
    have h5 : ¬ u = "min" := fun h => hu (by simp [h])
    exact ⟨u, by simp only [check_request_state, if_pos hst, if_neg h1,
      if_neg h2, if_neg h3, if_neg h4, if_neg h5]⟩
  · intro hst hu
    simp only [List.mem_cons, List.not_mem_nil, or_false] at hu
    rcases hu with h | h | h | h | h <;> subst h <;>
      (simp only [check_request_state, if_pos hst]
       split_ifs <;> simp_all)

/-- Witness for C5 at concrete inputs: state "ancient" (invalid),
checked at now = 2026-10-12, created = 2025-09-07, value 1,
unit "week". -/
theorem check_request_state_errors_witness :
    ((∃ e, check_request_state ⟨2026, 10, 12, 0, 0, 0⟩ ⟨2025, 9, 7, 0, 0, 0⟩
        (some "ancient") (some 1) (some "week")
        = .error (.invalidState e)) ↔ ("ancient" ≠ "older" ∧ "ancient" ≠ "newer"))
    ∧ (("ancient" = "older" ∨ "ancient" = "newer") →
        ((∃ e, check_request_state ⟨2026, 10, 12, 0, 0, 0⟩ ⟨2025, 9, 7, 0, 0, 0⟩
            (some "ancient") (some 1) (some "week")
            = .error (.invalidDuration e))
          ↔ "week" ∉ (["y", "m", "d", "h", "min"] : List String)))
    ∧ (("ancient" = "older" ∨ "ancient" = "newer") →
        "week" ∈ (["y", "m", "d", "h", "min"] : List String) →
        ∃ b, check_request_state ⟨2026, 10, 12, 0, 0, 0⟩ ⟨2025, 9, 7, 0, 0, 0⟩
          (some "ancient") (some 1) (some "week") = .ok b) :=
  check_request_state_errors ⟨2026, 10, 12, 0, 0, 0⟩ ⟨2025, 9, 7, 0, 0, 0⟩
    "ancient" 1 "week"

/-- Claim C6: when any of state, value, unit is unset the filter returns
true and raises no error, whatever the other inputs are. -/
theorem check_request_state_unset (now created_at : DateTime)
    (state_ : Option String) (value : Option Int) (duration : Option String)
    (h : state_ = none ∨ value = none ∨ duration = none) :
    check_request_state now created_at state_ value duration = .ok true := by
  cases state_ <;> cases value <;> cases duration <;>
    simp_all [check_request_state]

/-- Witness for C6: state unset, value and unit nonsense, at a concrete
instant. -/
theorem check_request_state_unset_witness :
    check_request_state ⟨2026, 10, 12, 0, 0, 0⟩ ⟨2025, 9, 7, 0, 0, 0⟩
      none (some 7) (some "week") = .ok true :=
  check_request_state_unset ⟨2026, 10, 12, 0, 0, 0⟩ ⟨2025, 9, 7, 0, 0, 0⟩
    none (some 7) (some "week") (Or.inl rfl)

/-- Counterexample to claim C4: at now = 2026-10-12 00:00:00 with
createdAt = 2025-09-07 00:00:00 (exactly 400 days earlier), the filter
with state "older", value 1, unit "y" returns true — the relative delta
is 1 year 1 month 5 days, so `years = 1 ≥ 1` — whereas the claim says it
returns false. -/
theorem check_request_state_400days_y_counterexample :
    check_request_state ⟨2026, 10, 12, 0, 0, 0⟩ ⟨2025, 9, 7, 0, 0, 0⟩
        (some "older") (some 1) (some "y") = .ok true
    ∧ check_request_state ⟨2026, 10, 12, 0, 0, 0⟩ ⟨2025, 9, 7, 0, 0, 0⟩
        (some "older") (some 1) (some "y") ≠ .ok false := by
  constructor
  · rfl
  · intro h
    have h' : (Except.ok true : Except FilterError Bool) = .ok false := h
    simp at h'

/-- Claim C4 as amended: with createdAt 400 days before now, the filter
with state "older" and value 1 returns true for unit "d" (for every
current time), and also returns true — not false — for unit "y"
(400 days spans a full calendar year; shown at now = 2026-10-12
00:00:00, createdAt = 2025-09-07 00:00:00, where the relative-delta
years equal 1). -/
theorem check_request_state_400days :
    (∀ now created_at : DateTime,
      now.toSeconds - created_at.toSeconds = 400 * 86400 →
      check_request_state now created_at (some "older") (some 1) (some "d") = .ok true)
    ∧ check_request_state ⟨2026, 10, 12, 0, 0, 0⟩ ⟨2025, 9, 7, 0, 0, 0⟩
        (some "older") (some 1) (some "y") = .ok true := by
  constructor
  · intro now created_at h
    rw [check_request_state_d_eq now created_at "older" 1 (Or.inl rfl), h]
    rfl
  · rfl

/-- Witness for C4's amended claim: the universally quantified "d" part
applied at now = 2026-10-12 00:00:00, createdAt = 2025-09-07 00:00:00,
whose distance is exactly 400 days. -/
theorem check_request_state_400days_witness :
    check_request_state ⟨2026, 10, 12, 0, 0, 0⟩ ⟨2025, 9, 7, 0, 0, 0⟩
      (some "older") (some 1) (some "d") = .ok true :=
  check_request_state_400days.1 ⟨2026, 10, 12, 0, 0, 0⟩ ⟨2025, 9, 7, 0, 0, 0⟩ rfl

/-- Counterexample to claim C8: with now = 2026-10-12 00:00:00,
lastActivity = 2026-10-13 00:00:00 and days = 0, both inputs are
present and `(now - lastActivity).days = -1 < 0 = days`, so the claim
says the check returns true; the code returns false, because the guard
`if last_activity and days:` treats the integer 0 as falsy. -/
theorem has_new_comments_counterexample :
    has_new_comments ⟨2026, 10, 12, 0, 0, 0⟩ (some ⟨2026, 10, 13, 0, 0, 0⟩) (some 0) = false
    ∧ Int.fdiv ((⟨2026, 10, 12, 0, 0, 0⟩ : DateTime).toSeconds
        - (⟨2026, 10, 13, 0, 0, 0⟩ : DateTime).toSeconds) 86400 < 0 := by
  exact ⟨rfl, by decide⟩

/-- Claim C8 as amended: `has_new_comments` returns true iff both inputs
are present, `days` is nonzero, and `(now - lastActivity).days < days`;
it returns false when either input is absent or `days = 0`. -/
theorem has_new_comments_spec (now : DateTime)
    (last_activity : Option DateTime) (days : Option Int) :
    has_new_comments now last_activity days = true ↔
      ∃ la d, last_activity = some la ∧ days = some d ∧ d ≠ 0
        ∧ Int.fdiv (now.toSeconds - la.toSeconds) 86400 < d := by
  cases last_activity <;> cases days <;>
    simp only [has_new_comments] <;>
    simp_all

/-- Witness for C8's amended claim at concrete inputs: lastActivity one
hour before now, days = 5. -/
theorem has_new_comments_spec_witness :
    has_new_comments ⟨2026, 10, 12, 12, 0, 0⟩ (some ⟨2026, 10, 12, 11, 0, 0⟩) (some 5) = true ↔
      ∃ la d, (some ⟨2026, 10, 12, 11, 0, 0⟩ : Option DateTime) = some la
        ∧ (some 5 : Option Int) = some d ∧ d ≠ 0
        ∧ Int.fdiv ((⟨2026, 10, 12, 12, 0, 0⟩ : DateTime).toSeconds - la.toSeconds) 86400 < d :=
  has_new_comments_spec ⟨2026, 10, 12, 12, 0, 0⟩ (some ⟨2026, 10, 12, 11, 0, 0⟩) (some 5)

/-- One step of the component walk in `BaseReview.format_duration`:
skip "minute" once something has been collected, emit value 1 in the
singular, values above 1 in the plural, and drop everything else. -/
def durationStep (acc : List String) (kv : String × Nat) : List String :=
  if kv.1 = "minute" ∧ acc ≠ [] then acc
  else if kv.2 = 1 then acc ++ [toString kv.2 ++ " " ++ kv.1]
  else if kv.2 > 1 then acc ++ [toString kv.2 ++ " " ++ kv.1 ++ "s"]
  else acc

/-- `BaseReview.format_duration(created_at)` with the current UTC time
passed as `now`: walk the relative-delta components year, month, day,
hour, minute in order, join with spaces, fall back to
"less than 1 minute". -/
def format_duration (now created_at : DateTime) : String :=
  let rel := relativedelta now created_at
  let result := [("year", rel.years), ("month", rel.months), ("day", rel.days),
    ("hour", rel.hours), ("minute", rel.minutes)].foldl durationStep []
  if result = [] then "less than 1 minute"
  else String.intercalate " " result

/-- Rendering of one duration component, as the spec words it: value 1
in the singular, values above 1 in the plural, value 0 omitted. -/
def pluralizeComp (k : String) (v : Nat) : List String :=
  if v = 1 then [toString v ++ " " ++ k]
  else if v > 1 then [toString v ++ " " ++ k ++ "s"]
  else []

/-- The duration string as the spec describes it, over the relative
delta components: the coarse components year, month, day, hour in order
with zeros omitted, the minute component only if no coarse component
was emitted, all joined by single spaces, with the fallback
"less than 1 minute" if nothing was emitted. -/
def claimDuration (r : RelDelta) : String :=
  let coarse := pluralizeComp "year" r.years ++ (pluralizeComp "month" r.months
    ++ (pluralizeComp "day" r.days ++ pluralizeComp "hour" r.hours))
  let parts := coarse ++ (if coarse = [] then pluralizeComp "minute" r.minutes else [])
  if parts = [] then "less than 1 minute"
  else String.intercalate " " parts

/-- A non-minute step appends exactly the pluralized component. -/
lemma durationStep_ne_minute (acc : List String) (k : String) (v : Nat)
    (h : ¬ k = "minute") : durationStep acc (k, v) = acc ++ pluralizeComp k v := by
  simp only [durationStep, pluralizeComp, h, false_and, if_false]
  split_ifs <;> simp

/-- The minute step appends the pluralized minute component only when
nothing was collected before it. -/
lemma durationStep_minute (acc : List String) (v : Nat) :
    durationStep acc ("minute", v)
      = acc ++ (if acc = [] then pluralizeComp "minute" v else []) := by
  simp only [durationStep, pluralizeComp]
  split_ifs <;> simp_all

/-- The full component walk, in closed form. -/
lemma duration_fold (y mo d h mi : Nat) :
    [("year", y), ("month", mo), ("day", d), ("hour", h),
      ("minute", mi)].foldl durationStep []
      = (pluralizeComp "year" y ++ (pluralizeComp "month" mo
          ++ (pluralizeComp "day" d ++ pluralizeComp "hour" h)))
        ++ (if (pluralizeComp "year" y ++ (pluralizeComp "month" mo
          ++ (pluralizeComp "day" d ++ pluralizeComp "hour" h))) = []
          then pluralizeComp "minute" mi else []) := by
  simp only [List.foldl]
  rw [durationStep_ne_minute _ "year" _ (by decide),
    durationStep_ne_minute _ "month" _ (by decide),
    durationStep_ne_minute _ "day" _ (by decide),
    durationStep_ne_minute _ "hour" _ (by decide),
    durationStep_minute]
  simp [List.append_assoc]

/-- Claim C2: `format_duration` renders exactly the spec's description
of the walk over the relative-delta components: fixed order year,
month, day, hour, minute; zero components omitted; the minute component
omitted once a coarser component was emitted; singular for value 1,
plural above 1; single-space joining; and the literal fallback
"less than 1 minute" when nothing is emitted. -/
theorem format_duration_spec (now created_at : DateTime) :
    format_duration now created_at = claimDuration (relativedelta now created_at) := by
  simp only [format_duration, claimDuration]
  rw [duration_fold]

/-- The `LastComment` namedtuple `(author, body, created_at)`. -/
structure LastComment where
  author : String
  body : String
  created_at : DateTime
deriving Repr, DecidableEq

/-- A `BaseReview` record.  `typeName` models `type(self).__name__`, the
discriminator written to the JSON "type" field (a subclass name such as
"GithubReview").  Fields the renderers require are modelled as plain
strings and integers. -/
structure BaseReview where
  user : String
  title : String
  url : String
  time : DateTime
  comments : Int
  image : Option String
  last_comment : Option LastComment
  project_name : Option String
  project_url : Option String
  typeName : String
deriving Repr, DecidableEq

/-- The `since` property: `format_duration` applied to the record's own
creation time. -/
def BaseReview.since (r : BaseReview) (now : DateTime) : String :=
  format_duration now r.time

/-- `BaseReview._format_oneline`. -/
def format_oneline (now : DateTime) (r : BaseReview) : String :=
  let s1 := r.user ++ " filed \x27" ++ r.title ++ "\x27 " ++ r.url
    ++ " " ++ r.since now ++ " ago"
  let s2 := if r.comments = 1 then s1 ++ ", " ++ toString r.comments ++ " comment"
    else if r.comments > 1 then s1 ++ ", " ++ toString r.comments ++ " comments"
    else s1
  match r.last_comment with
  | some lc => s2 ++ ", last comment by \x02" ++ lc.author ++ "\x02 "
      ++ format_duration now lc.created_at ++ " ago"
  | none => s2

/-- `BaseReview._format_indented`. -/
def format_indented (now : DateTime) (r : BaseReview) : String :=
  let s1 := r.user ++ " filed \x27" ++ r.title ++ "\x27\n\t" ++ r.url
    ++ "\n\t" ++ r.since now ++ " ago"
  let s2 := if r.comments = 1 then s1 ++ "\n\t" ++ toString r.comments ++ " comment"
    else if r.comments > 1 then s1 ++ "\n\t" ++ toString r.comments ++ " comments"
    else s1
  match r.last_comment with
  | some lc => s2 ++ ", last comment by \x02" ++ lc.author ++ "\x02 "
      ++ format_duration now lc.created_at ++ " ago"
  | none => s2

/-- `BaseReview._format_irc` (`\x02` is bold, `\x0312`/`\x03` delimit the
blue URL segment). -/
def format_irc (now : DateTime) (r : BaseReview) : String :=
  let s1 := "\x02" ++ r.user ++ "\x02 filed \x02\x27" ++ r.title ++ "\x27\x02 \x0312"
    ++ r.url ++ "\x03 " ++ r.since now ++ " ago"
  let s2 := if r.comments = 1 then s1 ++ ", " ++ toString r.comments ++ " comment"
    else if r.comments > 1 then s1 ++ ", " ++ toString r.comments ++ " comments"
    else s1
  match r.last_comment with
  | some lc => s2 ++ ", last comment by \x02" ++ lc.author ++ "\x02 "
      ++ format_duration now lc.created_at ++ " ago"
  | none => s2

/-- The last-comment suffix shared verbatim by the oneline, indented and
irc styles. -/
def last_comment_suffix (now : DateTime) (lc : LastComment) : String :=
  ", last comment by \x02" ++ lc.author ++ "\x02 "
    ++ format_duration now lc.created_at ++ " ago"

/-- The last-comment part of a rendering: the shared suffix when a last
comment is present, nothing otherwise. -/
def lastCommentPart (now : DateTime) : Option LastComment → String
  | some lc => last_comment_suffix now lc
  | none => ""

/-- The comment-count suffix common to the textual styles, up to the
style's layout separator: omitted at zero, singular at one, plural
above one. -/
def commentCountSuffix (sep : String) (c : Int) : String :=
  if c = 1 then sep ++ toString c ++ " comment"
  else if c > 1 then sep ++ toString c ++ " comments"
  else ""

/-- The style-specific fixed part of the oneline rendering. -/
def oneline_base (now : DateTime) (r : BaseReview) : String :=
  r.user ++ " filed \x27" ++ r.title ++ "\x27 " ++ r.url ++ " " ++ r.since now ++ " ago"

/-- The style-specific fixed part of the indented rendering. -/
def indented_base (now : DateTime) (r : BaseReview) : String :=
  r.user ++ " filed \x27" ++ r.title ++ "\x27\n\t" ++ r.url ++ "\n\t" ++ r.since now ++ " ago"

/-- The style-specific fixed part of the irc rendering. -/
def irc_base (now : DateTime) (r : BaseReview) : String :=
  "\x02" ++ r.user ++ "\x02 filed \x02\x27" ++ r.title ++ "\x27\x02 \x0312"
    ++ r.url ++ "\x03 " ++ r.since now ++ " ago"

/-- Claim C9: every textual style decomposes as its own base, followed
by the common comment-count suffix (empty at 0, singular at 1, plural
above 1) differing across styles only in the layout separator, followed
by the common last-comment part — so comment count and last-comment
presence are handled identically across styles except for layout. -/
theorem comment_count_uniform (now : DateTime) (r : BaseReview) :
    format_oneline now r
      = oneline_base now r ++ commentCountSuffix ", " r.comments
        ++ lastCommentPart now r.last_comment
    ∧ format_indented now r
      = indented_base now r ++ commentCountSuffix "\n\t" r.comments
        ++ lastCommentPart now r.last_comment
    ∧ format_irc now r
      = irc_base now r ++ commentCountSuffix ", " r.comments
        ++ lastCommentPart now r.last_comment := by
  refine ⟨?_, ?_, ?_⟩ <;>
    (cases hlc : r.last_comment <;>
      simp only [format_oneline, format_indented, format_irc, oneline_base,
        indented_base, irc_base, commentCountSuffix, lastCommentPart,
        last_comment_suffix, hlc] <;>
      split_ifs <;>
      simp only [String.append_assoc, String.append_empty, String.empty_append])

/-- Claim C10: whenever a last comment is present, the oneline, indented
and irc styles all append the character-for-character identical suffix
", last comment by \x02{author}\x02 {duration} ago" — the author name
is wrapped in the \x02 bold control characters in the plain-text styles
just as in irc. -/
theorem last_comment_suffix_uniform (now : DateTime) (r : BaseReview)
    (lc : LastComment) (h : r.last_comment = some lc) :
    format_oneline now r
      = format_oneline now { r with last_comment := none } ++ last_comment_suffix now lc
    ∧ format_indented now r
      = format_indented now { r with last_comment := none } ++ last_comment_suffix now lc
    ∧ format_irc now r
      = format_irc now { r with last_comment := none } ++ last_comment_suffix now lc
    ∧ last_comment_suffix now lc
      = ", last comment by \x02" ++ lc.author ++ "\x02 "
          ++ format_duration now lc.created_at ++ " ago" := by
  refine ⟨?_, ?_, ?_, rfl⟩ <;>
    (simp only [format_oneline, format_indented, format_irc,
      last_comment_suffix, BaseReview.since, h]
     split_ifs <;>
     simp only [String.append_assoc])

/-- A concrete last comment used to instantiate universally quantified
theorems. -/
def sampleComment : LastComment :=
  { author := "alice", body := "lgtm", created_at := ⟨2026, 10, 10, 9, 30, 0⟩ }

/-- A concrete review record used to instantiate universally quantified
theorems. -/
def sampleReview : BaseReview :=
  { user := "bob", title := "Fix the build", url := "https://example.com/pr/1",
    time := ⟨2026, 10, 1, 12, 0, 0⟩, comments := 2, image := none,
    last_comment := some sampleComment, project_name := none,
    project_url := none, typeName := "GithubReview" }

/-- Witness for C10 at the sample record and 2026-10-12 00:00:00. -/
theorem last_comment_suffix_uniform_witness :
    format_oneline ⟨2026, 10, 12, 0, 0, 0⟩ sampleReview
      = format_oneline ⟨2026, 10, 12, 0, 0, 0⟩ { sampleReview with last_comment := none }
          ++ last_comment_suffix ⟨2026, 10, 12, 0, 0, 0⟩ sampleComment
    ∧ format_indented ⟨2026, 10, 12, 0, 0, 0⟩ sampleReview
      = format_indented ⟨2026, 10, 12, 0, 0, 0⟩ { sampleReview with last_comment := none }
          ++ last_comment_suffix ⟨2026, 10, 12, 0, 0, 0⟩ sampleComment
    ∧ format_irc ⟨2026, 10, 12, 0, 0, 0⟩ sampleReview
      = format_irc ⟨2026, 10, 12, 0, 0, 0⟩ { sampleReview with last_comment := none }
          ++ last_comment_suffix ⟨2026, 10, 12, 0, 0, 0⟩ sampleComment
    ∧ last_comment_suffix ⟨2026, 10, 12, 0, 0, 0⟩ sampleComment
      = ", last comment by \x02" ++ sampleComment.author ++ "\x02 "
          ++ format_duration ⟨2026, 10, 12, 0, 0, 0⟩ sampleComment.created_at ++ " ago" :=
  last_comment_suffix_uniform ⟨2026, 10, 12, 0, 0, 0⟩ sampleReview sampleComment rfl

mutual

/-- A JSON value, as produced by `BaseReview.__json__` (strings, numbers,
null, objects with insertion-ordered fields). -/
inductive JVal where
  | str : String → JVal
  | num : Int → JVal
  | null : JVal
  | obj : JFields → JVal

/-- The insertion-ordered fields of a JSON object. -/
inductive JFields where
  | nil : JFields
  | fcons : String → JVal → JFields → JFields

end

/-- Look a key up in an insertion-ordered field list (keys are unique in
every object `__json__` builds). -/
def JFields.lookup : JFields → String → Option JVal
  | .nil, _ => none
  | .fcons k v rest, key => if k = key then some v else rest.lookup key

/-- Field access on a JSON value: defined on objects only. -/
def JVal.getField : JVal → String → Option JVal
  | .obj fs, key => fs.lookup key
  | _, _ => none

/-- The `last_comment` sub-object of `__json__`: author and
created-at epoch always, the body only when `show_last_comment` is not
`None`. -/
def lastCommentJson (lc : LastComment) (show_last_comment : Option Int) : JFields :=
  .fcons "author" (.str lc.author)
    (.fcons "created_at" (.num lc.created_at.toSeconds)
      (match show_last_comment with
       | some _ => .fcons "body" (.str lc.body) .nil
       | none => .nil))

/-- `BaseReview.__json__(show_last_comment)` with the current UTC time
passed as `now`.  Timestamps are modelled as epoch seconds of the stored
naive datetime (`time.mktime(..timetuple())` at second granularity);
`type(self).__name__` is the record's `typeName`. -/
def BaseReview.json (r : BaseReview) (now : DateTime)
    (show_last_comment : Option Int) : JVal :=
  .obj (.fcons "user" (.str r.user)
    (.fcons "title" (.str r.title)
    (.fcons "url" (.str r.url)
    (.fcons "relative_time" (.str (r.since now))
    (.fcons "time" (.num r.time.toSeconds)
    (.fcons "comments" (.num r.comments)
    (.fcons "type" (.str r.typeName)
    (.fcons "image" (match r.image with | some s => .str s | none => .null)
    (match r.last_comment with
     | some lc => .fcons "last_comment" (.obj (lastCommentJson lc show_last_comment)) .nil
     | none => .nil)))))))))

/-- Claim C7: the serialization of a record with a last comment has a
`last_comment` object carrying `author` and `created_at`, whose `body`
field is present exactly when the caller passes a non-`None`
`show_last_comment`; without a last comment the `last_comment` field is
absent. -/
theorem json_last_comment_fields (now : DateTime) (r : BaseReview)
    (slc : Option Int) :
    (∀ lc, r.last_comment = some lc →
      (r.json now slc).getField "last_comment"
          = some (.obj (lastCommentJson lc slc))
        ∧ (lastCommentJson lc slc).lookup "author" = some (.str lc.author)
        ∧ (lastCommentJson lc slc).lookup "created_at"
            = some (.num lc.created_at.toSeconds)
        ∧ (slc.isSome → (lastCommentJson lc slc).lookup "body" = some (.str lc.body))
        ∧ (slc = none → (lastCommentJson lc slc).lookup "body" = none))
    ∧ (r.last_comment = none →
        (r.json now slc).getField "last_comment" = none) := by
  constructor
  · intro lc h
    refine ⟨?_, ?_, ?_, ?_, ?_⟩
    · simp only [BaseReview.json, h]
      rfl
    · cases slc <;> rfl
    · cases slc <;> rfl
    · cases slc <;> simp [lastCommentJson, JFields.lookup]
    · cases slc <;> simp [lastCommentJson, JFields.lookup]
  · intro h
    simp only [BaseReview.json, h]
    rfl

/-- Witness for C7 at the sample record (which has a last comment) with
the body requested. -/
theorem json_last_comment_fields_witness :
    (sampleReview.json ⟨2026, 10, 12, 0, 0, 0⟩ (some 1)).getField "last_comment"
        = some (.obj (lastCommentJson sampleComment (some 1)))
      ∧ (lastCommentJson sampleComment (some 1)).lookup "author"
          = some (.str sampleComment.author)
      ∧ (lastCommentJson sampleComment (some 1)).lookup "created_at"
          = some (.num sampleComment.created_at.toSeconds)
      ∧ ((some 1 : Option Int).isSome →
          (lastCommentJson sampleComment (some 1)).lookup "body"
            = some (.str sampleComment.body))
      ∧ ((some 1 : Option Int) = none →
          (lastCommentJson sampleComment (some 1)).lookup "body" = none) :=
  (json_last_comment_fields ⟨2026, 10, 12, 0, 0, 0⟩ sampleReview (some 1)).1
    sampleComment rfl

/-- Escaping of one character inside a JSON string literal, as
`json.dumps` performs it for the characters that occur here. -/
def jescapeChar (c : Char) : String :=
  if c = '\\' then "\\\\"
  else if c = '"' then "\\\""
  else if c = '\n' then "\\n"
  else if c = '\t' then "\\t"
  else if c = '\r' then "\\r"
  else String.singleton c

/-- Escaping of a JSON string literal body. -/
def jescape (s : String) : String :=
  String.join (s.toList.map jescapeChar)

/-- The indentation prefix at nesting depth `n` for `json.dumps(...,
indent=2)`: two spaces per level. -/
def jIndent (n : Nat) : String :=
  String.join (List.replicate n "  ")

mutual

/-- `json.dumps(v, indent=2)` at nesting depth `lvl`. -/
def jdump (lvl : Nat) : JVal → String
  | .str s => "\"" ++ jescape s ++ "\""
  | .num n => toString n
  | .null => "null"
  | .obj .nil => "\x7b\x7d"
  | .obj (.fcons k v rest) =>
    "\x7b\n" ++ jdumpFields (lvl + 1) (.fcons k v rest) ++ "\n" ++ jIndent lvl ++ "\x7d"

/-- The comma-and-newline separated field lines of an object at nesting
depth `lvl`. -/
def jdumpFields (lvl : Nat) : JFields → String
  | .nil => ""
  | .fcons k v .nil => jIndent lvl ++ "\"" ++ jescape k ++ "\": " ++ jdump lvl v
  | .fcons k v (.fcons k' v' rest) =>
    jIndent lvl ++ "\"" ++ jescape k ++ "\": " ++ jdump lvl v ++ ",\n"
      ++ jdumpFields lvl (.fcons k' v' rest)

end

/-- `BaseReview._format_json(i, N, show_last_comment)` with the current
UTC time passed as `now`.  The guard `if i and N:` tests Python
truthiness, so it passes only when both are non-`None` **and** nonzero;
otherwise the method implicitly returns `None` (modelled as `none`).
Inside the guard the serialization gets a trailing comma iff
`i < N - 1`. -/
def format_json (now : DateTime) (r : BaseReview) (i N : Option Int)
    (show_last_comment : Option Int) : Option String :=
  match i, N with
  | some iv, some nv =>
    if iv ≠ 0 ∧ nv ≠ 0 then
      some (jdump 0 (r.json now show_last_comment)
        ++ (if iv < nv - 1 then "," else ""))
    else none
  | _, _ => none

/-- Claim C3 (code bug): at the boundary `index = 0, total = 1` — both
supplied — the json style produces no output at all, because the guard
`if i and N:` treats the integer 0 as unsupplied; the claim (and the
code's own comment "Include a comma after every entry, except the
last.") say the record should be serialized without a trailing comma.
For nonzero `index` and `total` the serialization does carry a trailing
comma exactly when `index < total - 1`, and when either argument is
`None` there is no output, as the claim states. -/
theorem format_json_zero_index_bug (now : DateTime) (r : BaseReview)
    (slc : Option Int) :
    format_json now r (some 0) (some 1) slc = none
    ∧ (∀ i N : Int, i ≠ 0 → N ≠ 0 →
        format_json now r (some i) (some N) slc
          = some (jdump 0 (r.json now slc) ++ (if i < N - 1 then "," else "")))
    ∧ (∀ N, format_json now r none N slc = none)
    ∧ (∀ i, format_json now r i none slc = none) := by
  refine ⟨rfl, ?_, ?_, ?_⟩
  · intro i N h1 h2
    simp [format_json, h1, h2]
  · intro N
    rfl
  · intro i
    cases i <;> rfl

/-- Witness for C3's theorem: `index = 1, total = 3` (both truthy)
produces the serialization with a trailing comma. -/
theorem format_json_zero_index_bug_witness :
    format_json ⟨2026, 10, 12, 0, 0, 0⟩ sampleReview (some 1) (some 3) (some 1)
      = some (jdump 0 (sampleReview.json ⟨2026, 10, 12, 0, 0, 0⟩ (some 1))
          ++ (if (1 : Int) < 3 - 1 then "," else "")) :=
  (format_json_zero_index_bug ⟨2026, 10, 12, 0, 0, 0⟩ sampleReview (some 1)).2.1
    1 3 (by decide) (by decide)
